import Mathlib

/-!
Shallow embedding of the inventory CRUD service in src/server.js.

The service is an HTTP/JSON API over four tables (category, sub_category,
component, sub_component).  Each request handler (a) optionally runs the
validateUUID middleware on the :uuid path parameter, (b) runs its
express-validator body chains collecting field errors, (c) executes one SQL
statement against the store, and (d) maps the outcome to a status code and
JSON body.  We model JSON body values, the express-validator semantics
(stringification of values, error collection across all chains), the
validator.js checks used by the code (notEmpty, isInt with min 0, isISO8601,
isString), the uuid-validate v4 syntactic check, the four tables as lists of
rows, and every handler of the source as a pure function from store and
request to an HTTP result.  The store itself is modelled as a reachable,
non-failing database: the generated row identifier is passed as an explicit
argument, SQL parameters keep the JavaScript values bound by the handler,
and an absent JavaScript value is stored as SQL NULL (modelled as none).
-/

/-- A JSON value as it appears in a request body.  Bodies in this
development use null, string and integer-number values, which covers every
field the handlers read. -/
inductive JValue where
  | jnull
  | jstr (s : String)
  | jnum (n : Int)
deriving DecidableEq, Repr

/-- A request body: an association list from field names to JSON values.
A field absent from the list is an undefined field. -/
def Body := List (String × JValue)

/-- Field lookup in a request body, mirroring property access on req.body:
an absent field reads as undefined (none). -/
def bodyGet : Body → String → Option JValue
  | [], _ => none
  | (k, v) :: r, f => if k = f then some v else bodyGet r f

/-- express-validator stringification of a field value before it is handed
to a validator.js check: undefined and null become the empty string, a
number becomes its decimal representation, a string is itself. -/
def jvToString : Option JValue → String
  | none => ""
  | some JValue.jnull => ""
  | some (JValue.jstr s) => s
  | some (JValue.jnum n) => toString n

/-- Digit value of a decimal digit character. -/
def digitVal (c : Char) : Nat := c.toNat - '0'.toNat

/-- validator.js isInt syntactic part: an optional sign followed by one or
more decimal digits (leading zeroes allowed by default). -/
def isIntString (s : String) : Bool :=
  match s.data with
  | '+' :: r => !r.isEmpty && r.all Char.isDigit
  | '-' :: r => !r.isEmpty && r.all Char.isDigit
  | r => !r.isEmpty && r.all Char.isDigit

/-- Numeric value of a digit list, most significant digit first. -/
def natOfDigits (l : List Char) : Nat :=
  l.foldl (fun n c => 10 * n + digitVal c) 0

/-- Integer value of a signed decimal numeral, as parseInt reads it. -/
def intVal (s : String) : Int :=
  match s.data with
  | '+' :: r => (natOfDigits r : Int)
  | '-' :: r => - (natOfDigits r : Int)
  | r => (natOfDigits r : Int)

/-- validator.js isInt with option min 0: a signed decimal numeral whose
value is at least zero. -/
def isIntMin0 (s : String) : Bool :=
  isIntString s && decide (0 ≤ intVal s)

/-- A word character for the regex word-boundary test. -/
def isWordChar (c : Char) : Bool := c.isAlphanum || c == '_'

/-- Two decimal digits, returning their value and the rest of the input. -/
def take2 : List Char → Option (Nat × List Char)
  | a :: b :: r =>
    if a.isDigit && b.isDigit then some (10 * digitVal a + digitVal b, r) else none
  | _ => none

/-- Three decimal digits. -/
def take3 : List Char → Option (Nat × List Char)
  | a :: b :: c :: r =>
    if a.isDigit && b.isDigit && c.isDigit then
      some (100 * digitVal a + 10 * digitVal b + digitVal c, r)
    else none
  | _ => none

/-- Four decimal digits. -/
def take4 : List Char → Option (Nat × List Char)
  | a :: b :: c :: d :: r =>
    if (a.isDigit && b.isDigit) && (c.isDigit && d.isDigit) then
      some (1000 * digitVal a + 100 * digitVal b + 10 * digitVal c + digitVal d, r)
    else none
  | _ => none

/-- The negative lookahead after the year in the validator.js ISO 8601
regex: the match fails when the year is followed by exactly two digits that
end at a word boundary. -/
def yearLookaheadFails : List Char → Bool
  | a :: b :: rest =>
    a.isDigit && b.isDigit &&
      (match rest with
       | [] => true
       | c :: _ => !isWordChar c)
  | _ => false

/-- Calendar-date alternative of the ISO 8601 regex: a month 01..12,
optionally followed by the captured separator and a day 01..31.  Returns
every remainder a backtracking match could leave. -/
def monthDayCands (sep : Bool) (cs : List Char) : List (List Char) :=
  match take2 cs with
  | some (m, r) =>
    if 1 ≤ m && m ≤ 12 then
      let afterSep : Option (List Char) :=
        if sep then
          match r with
          | '-' :: t => some t
          | _ => none
        else some r
      let withDay : List (List Char) :=
        match afterSep with
        | some r2 =>
          match take2 r2 with
          | some (d, r3) => if 1 ≤ d && d ≤ 31 then [r3] else []
          | none => []
        | none => []
      r :: withDay
    else []
  | none => []

/-- Optional week-day digit of the week-date alternative: an optional dash
then a digit 1..7. -/
def weekDayCands (cs : List Char) : List (List Char) :=
  let direct : List (List Char) :=
    match cs with
    | c :: t => if '1' ≤ c && c ≤ '7' then [t] else []
    | [] => []
  let dashed : List (List Char) :=
    match cs with
    | '-' :: c :: t => if '1' ≤ c && c ≤ '7' then [t] else []
    | _ => []
  cs :: (direct ++ dashed)

/-- Week-date alternative of the ISO 8601 regex: W, a week 00..52, and an
optional week day. -/
def weekCands : List Char → List (List Char)
  | 'W' :: r =>
    (match take2 r with
     | some (w, r2) => if w ≤ 52 then weekDayCands r2 else []
     | none => [])
  | _ => []

/-- Ordinal-date alternative of the ISO 8601 regex: three digits whose
value lies in 001..359 or 361..366 (the regex excludes 360). -/
def ordinalCands (cs : List Char) : List (List Char) :=
  match take3 cs with
  | some (v, r) =>
    if (1 ≤ v && v ≤ 359) || (361 ≤ v && v ≤ 366) then [r] else []
  | none => []

/-- Date part after the year: an optional dash shared as the captured
separator, then the calendar, week or ordinal alternative. -/
def dateCands (cs : List Char) : List (List Char) :=
  match cs with
  | '-' :: t => monthDayCands true t ++ weekCands t ++ ordinalCands t
  | _ => monthDayCands false cs ++ weekCands cs ++ ordinalCands cs

/-- Clock of the time part: hours 00..23 with optional minutes (the colon
before the minutes is the captured group echoed before the seconds), or
24:00 / 2400.  Returns (colon captured, remainder) pairs. -/
def clockCands (cs : List Char) : List (Bool × List Char) :=
  let hhBranch : List (Bool × List Char) :=
    match take2 cs with
    | some (h, r) =>
      if h ≤ 23 then
        let mmNoColon : List (Bool × List Char) :=
          match take2 r with
          | some (m, r2) => if m ≤ 59 then [(false, r2)] else []
          | none => []
        let mmColon : List (Bool × List Char) :=
          match r with
          | ':' :: r1 =>
            (match take2 r1 with
             | some (m, r2) => if m ≤ 59 then [(true, r2)] else []
             | none => [])
          | _ => []
        (false, r) :: (mmNoColon ++ mmColon)
      else []
    | none => []
  let b2400 : List (Bool × List Char) :=
    match cs with
    | '2' :: '4' :: ':' :: '0' :: '0' :: t => [(false, t)]
    | '2' :: '4' :: '0' :: '0' :: t => [(false, t)]
    | _ => []
  hhBranch ++ b2400

/-- Digit runs of a fraction whose following character may not be a colon
(the lookahead of the first fraction group): all backtracking splits. -/
def fracDigitsLA : List Char → List (List Char)
  | d :: r =>
    if d.isDigit then
      (match r with
       | ':' :: _ => []
       | _ => [r]) ++ fracDigitsLA r
    else []
  | [] => []

/-- First fraction group: a dot or comma, one or more digits, not followed
by a colon. -/
def fracCands (cs : List Char) : List (List Char) :=
  match cs with
  | c :: r => if c == '.' || c == ',' then fracDigitsLA r else []
  | [] => []

/-- Digit runs of the seconds fraction (no lookahead). -/
def fracDigitsNoLA : List Char → List (List Char)
  | d :: r => if d.isDigit then r :: fracDigitsNoLA r else []
  | [] => []

/-- Seconds fraction group: a dot or comma and one or more digits. -/
def frac2Cands (cs : List Char) : List (List Char) :=
  match cs with
  | c :: r => if c == '.' || c == ',' then fracDigitsNoLA r else []
  | [] => []

/-- Seconds group: the echoed colon capture, seconds 00..59, optional
fraction. -/
def secondsCands (flag : Bool) (cs : List Char) : List (List Char) :=
  let afterColon : Option (List Char) :=
    if flag then
      match cs with
      | ':' :: t => some t
      | _ => none
    else some cs
  match afterColon with
  | some r =>
    (match take2 r with
     | some (s, r2) => if s ≤ 59 then r2 :: frac2Cands r2 else []
     | none => [])
  | none => []

/-- Timezone tail after the sign and hours: optional colon, optional
minutes, then end of input. -/
def tzTailOk (r2 : List Char) : Bool :=
  let starts : List (List Char) :=
    match r2 with
    | ':' :: t => [r2, t]
    | _ => [r2]
  starts.any (fun r3 =>
    decide (r3 = []) ||
    (match take2 r3 with
     | some (m, r4) => if m ≤ 59 then decide (r4 = []) else false
     | none => false))

/-- Optional timezone then end of input: nothing, z or Z, or a signed hour
offset with optional colon and minutes. -/
def tzEndOk (cs : List Char) : Bool :=
  match cs with
  | [] => true
  | c :: r =>
    if c == 'z' || c == 'Z' then decide (r = [])
    else if c == '+' || c == '-' then
      match take2 r with
      | some (h, r2) => if h ≤ 23 then tzTailOk r2 else false
      | none => false
    else false

/-- Time part of the ISO 8601 regex: empty, or T or a space followed by an
optional clock with optional fraction, an optional seconds group and an
optional timezone, consuming the whole rest of the input. -/
def timeOk (cs : List Char) : Bool :=
  match cs with
  | [] => true
  | c :: r =>
    if c == 'T' || c == ' ' then
      let clockRes : List (Bool × List Char) :=
        (false, r) ::
          (clockCands r).foldr
            (fun p acc =>
              (p.1, p.2) :: ((fracCands p.2).map (fun r2 => (p.1, r2)) ++ acc))
            []
      clockRes.any (fun p =>
        (p.2 :: secondsCands p.1 p.2).any tzEndOk)
    else false

/-- validator.js isISO8601 with default options, as the regex it applies:
an optional sign, a four-digit year not followed by two digits at a word
boundary, then optionally a date part and an optional time part. -/
def isISO8601 (s : String) : Bool :=
  let cs : List Char :=
    match s.data with
    | '+' :: t => t
    | '-' :: t => t
    | l => l
  match take4 cs with
  | some (_, r1) =>
    if yearLookaheadFails r1 then false
    else if r1.isEmpty then true
    else (dateCands r1).any timeOk
  | none => false

/-- A hexadecimal digit. -/
def isHexChar (c : Char) : Bool :=
  c.isDigit || ('a' ≤ c && c ≤ 'f') || ('A' ≤ c && c ≤ 'F')

/-- Split a character list at every dash. -/
def splitDash : List Char → List (List Char)
  | [] => [[]]
  | '-' :: r => [] :: splitDash r
  | c :: r =>
    match splitDash r with
    | g :: gs => (c :: g) :: gs
    | [] => [[c]]

/-- The uuid-validate version 4 syntactic check used by the validateUUID
middleware: five dash-separated hex groups of lengths 8-4-4-4-12, version
nibble 4, variant nibble 8, 9, a or b. -/
def isUUID (s : String) : Bool :=
  match splitDash s.data with
  | [g1, g2, g3, g4, g5] =>
    decide (g1.length = 8) && decide (g2.length = 4) &&
    decide (g3.length = 4) && decide (g4.length = 4) &&
    decide (g5.length = 12) &&
    g1.all isHexChar && g2.all isHexChar && g3.all isHexChar &&
    g4.all isHexChar && g5.all isHexChar &&
    (match g3 with
     | c :: _ => c == '4'
     | [] => false) &&
    (match g4 with
     | c :: _ => c == '8' || c == '9' || c == 'a' || c == 'b' || c == 'A' || c == 'B'
     | [] => false)
  | _ => false

/-- One structured validation error, carrying the offending field name and
the message attached with withMessage. -/
structure FieldError where
  field : String
  msg : String
deriving DecidableEq, Repr

/-- The validator.js check a chain applies to its field. -/
inductive Check where
  | notEmpty
  | intMin0
  | iso8601
  | isStr
deriving DecidableEq, Repr

/-- One express-validator chain: a field, whether it is optional (skipped
when the field is undefined), its check, and its message. -/
structure Chain where
  fld : String
  opt : Bool
  chk : Check
  msg : String

/-- Run one check on a field value, after express-validator
stringification where validator.js is involved; isString inspects the raw
value. -/
def runCheck : Check → Option JValue → Bool
  | Check.notEmpty, v => !(decide (jvToString v = ""))
  | Check.intMin0, v => isIntMin0 (jvToString v)
  | Check.iso8601, v => isISO8601 (jvToString v)
  | Check.isStr, v =>
    match v with
    | some (JValue.jstr _) => true
    | _ => false

/-- Whether a chain produces an error on a body: an optional chain is
skipped on an undefined field, otherwise the chain fails exactly when its
check fails. -/
def failsChain (c : Chain) (b : Body) : Bool :=
  !(c.opt && (bodyGet b c.fld).isNone) && !(runCheck c.chk (bodyGet b c.fld))

/-- Errors contributed by one chain. -/
def runChain (c : Chain) (b : Body) : List FieldError :=
  if failsChain c b then [⟨c.fld, c.msg⟩] else []

/-- validationResult: every chain runs and the errors of all of them are
collected in declaration order, not fail-fast. -/
def runChains : List Chain → Body → List FieldError
  | [], _ => []
  | c :: cs, b => runChain c b ++ runChains cs b

/-- Chains of POST and PUT /api/categories. -/
def categoryChains : List Chain :=
  [⟨"categoryName", false, Check.notEmpty, "Category name is required"⟩]

/-- Chains of POST and PUT /api/sub-categories. -/
def subCategoryChains : List Chain :=
  [⟨"subCategoryName", false, Check.notEmpty, "Sub-category name is required"⟩,
   ⟨"parent", false, Check.notEmpty, "Parent category UUID is required"⟩]

/-- Chains of POST and PUT /api/components. -/
def componentChains : List Chain :=
  [⟨"reference", false, Check.notEmpty, "Reference is required"⟩,
   ⟨"quantity", false, Check.intMin0, "Quantity must be a non-negative integer"⟩,
   ⟨"date_checked", false, Check.iso8601, "Date must be in ISO8601 format"⟩,
   ⟨"category", false, Check.notEmpty, "Category UUID is required"⟩,
   ⟨"sub_category", false, Check.notEmpty, "Sub-category UUID is required"⟩]

/-- Chains of POST and PUT /api/sub-components. -/
def subComponentChains : List Chain :=
  [⟨"super_uuid", false, Check.notEmpty, "Super UUID is required"⟩,
   ⟨"place", false, Check.notEmpty, "Place is required"⟩,
   ⟨"note", true, Check.isStr, "Note must be a string"⟩]

/-- A row of component_manager.category. -/
structure CategoryRow where
  uuid : String
  categoryName : Option JValue
deriving DecidableEq, Repr

/-- A row of component_manager.sub_category. -/
structure SubCategoryRow where
  uuid : String
  subCategoryName : Option JValue
  parent : Option JValue
deriving DecidableEq, Repr

/-- A row of component_manager.component. -/
structure ComponentRow where
  uuid : String
  reference : Option JValue
  quantity : Option JValue
  date_checked : Option JValue
  category : Option JValue
  sub_category : Option JValue
deriving DecidableEq, Repr

/-- A row of component_manager.sub_component. -/
structure SubComponentRow where
  uuid : String
  super_uuid : Option JValue
  place : Option JValue
  note : Option JValue
deriving DecidableEq, Repr

/-- The four tables of the component_manager schema. -/
structure Store where
  categories : List CategoryRow
  subCategories : List SubCategoryRow
  components : List ComponentRow
  subComponents : List SubComponentRow
deriving DecidableEq, Repr

/-- The empty store. -/
def emptyStore : Store := ⟨[], [], [], []⟩

/-- A JSON response body: empty (res.send() on 204), a single error
message object, a list of validation errors, or a row list of one of the
four tables. -/
inductive ResBody where
  | empty
  | errorMsg (e : String)
  | validationErrors (es : List FieldError)
  | categoryRows (rs : List CategoryRow)
  | subCategoryRows (rs : List SubCategoryRow)
  | componentRows (rs : List ComponentRow)
  | subComponentRows (rs : List SubComponentRow)
deriving DecidableEq, Repr

/-- Outcome of one request: status, response body, post-request store, and
whether a SQL statement was executed. -/
structure HResult where
  status : Nat
  body : ResBody
  store : Store
  sqlRan : Bool
deriving DecidableEq, Repr

/-- The validation errors carried by a response body, if any. -/
def bodyErrors : ResBody → List FieldError
  | ResBody.validationErrors es => es
  | _ => []

/-- Whether a result's body carries a validation error naming a field. -/
def hasFieldError (r : HResult) (f : String) : Bool :=
  (bodyErrors r.body).any (fun e => decide (e.field = f))

/-- RETURNING rows of an UPDATE: the matching rows, updated. -/
def returningRows {α : Type} (p : α → Bool) (f : α → α) (l : List α) : List α :=
  (l.filter p).map f

/-- Table contents after an UPDATE: matching rows updated in place. -/
def updateRows {α : Type} (p : α → Bool) (f : α → α) (l : List α) : List α :=
  l.map (fun r => if p r then f r else r)

/-- POST /api/categories. -/
def postCategory (st : Store) (newUuid : String) (b : Body) : HResult :=
  let errs := runChains categoryChains b
  if errs = [] then
    let row : CategoryRow := ⟨newUuid, bodyGet b "categoryName"⟩
    ⟨201, ResBody.categoryRows [row],
      { st with categories := st.categories ++ [row] }, true⟩
  else ⟨400, ResBody.validationErrors errs, st, false⟩

/-- GET /api/categories. -/
def getCategories (st : Store) : HResult :=
  ⟨200, ResBody.categoryRows st.categories, st, true⟩

/-- PUT /api/categories/:uuid. -/
def putCategory (st : Store) (u : String) (b : Body) : HResult :=
  if !isUUID u then ⟨400, ResBody.errorMsg "Invalid UUID", st, false⟩
  else
    let errs := runChains categoryChains b
    if errs = [] then
      let upd := fun r : CategoryRow => { r with categoryName := bodyGet b "categoryName" }
      let p := fun r : CategoryRow => decide (r.uuid = u)
      let returned := returningRows p upd st.categories
      if returned = [] then
        ⟨404, ResBody.errorMsg "Category not found",
          { st with categories := updateRows p upd st.categories }, true⟩
      else
        ⟨200, ResBody.categoryRows returned,
          { st with categories := updateRows p upd st.categories }, true⟩
    else ⟨400, ResBody.validationErrors errs, st, false⟩

/-- DELETE /api/categories/:uuid. -/
def deleteCategory (st : Store) (u : String) : HResult :=
  if !isUUID u then ⟨400, ResBody.errorMsg "Invalid UUID", st, false⟩
  else
    let p := fun r : CategoryRow => decide (r.uuid = u)
    let returned := st.categories.filter p
    let remaining := st.categories.filter (fun r => !p r)
    if returned = [] then
      ⟨404, ResBody.errorMsg "Category not found",
        { st with categories := remaining }, true⟩
    else ⟨204, ResBody.empty, { st with categories := remaining }, true⟩

/-- POST /api/sub-categories. -/
def postSubCategory (st : Store) (newUuid : String) (b : Body) : HResult :=
  let errs := runChains subCategoryChains b
  if errs = [] then
    let row : SubCategoryRow := ⟨newUuid, bodyGet b "subCategoryName", bodyGet b "parent"⟩
    ⟨201, ResBody.subCategoryRows [row],
      { st with subCategories := st.subCategories ++ [row] }, true⟩
  else ⟨400, ResBody.validationErrors errs, st, false⟩

/-- GET /api/sub-categories/:uuid (sub-categories of a parent category). -/
def getSubCategoriesByParent (st : Store) (u : String) : HResult :=
  if !isUUID u then ⟨400, ResBody.errorMsg "Invalid UUID", st, false⟩
  else
    ⟨200, ResBody.subCategoryRows
        (st.subCategories.filter (fun r => decide (r.parent = some (JValue.jstr u)))),
      st, true⟩

/-- PUT /api/sub-categories/:uuid. -/
def putSubCategory (st : Store) (u : String) (b : Body) : HResult :=
  if !isUUID u then ⟨400, ResBody.errorMsg "Invalid UUID", st, false⟩
  else
    let errs := runChains subCategoryChains b
    if errs = [] then
      let upd := fun r : SubCategoryRow =>
        { r with subCategoryName := bodyGet b "subCategoryName", parent := bodyGet b "parent" }
      let p := fun r : SubCategoryRow => decide (r.uuid = u)
      let returned := returningRows p upd st.subCategories
      if returned = [] then
        ⟨404, ResBody.errorMsg "Sub-category not found",
          { st with subCategories := updateRows p upd st.subCategories }, true⟩
      else
        ⟨200, ResBody.subCategoryRows returned,
          { st with subCategories := updateRows p upd st.subCategories }, true⟩
    else ⟨400, ResBody.validationErrors errs, st, false⟩

/-- DELETE /api/sub-categories/:uuid. -/
def deleteSubCategory (st : Store) (u : String) : HResult :=
  if !isUUID u then ⟨400, ResBody.errorMsg "Invalid UUID", st, false⟩
  else
    let p := fun r : SubCategoryRow => decide (r.uuid = u)
    let returned := st.subCategories.filter p
    let remaining := st.subCategories.filter (fun r => !p r)
    if returned = [] then
      ⟨404, ResBody.errorMsg "Sub-category not found",
        { st with subCategories := remaining }, true⟩
    else ⟨204, ResBody.empty, { st with subCategories := remaining }, true⟩

/-- POST /api/components. -/
def postComponent (st : Store) (newUuid : String) (b : Body) : HResult :=
  let errs := runChains componentChains b
  if errs = [] then
    let row : ComponentRow :=
      ⟨newUuid, bodyGet b "reference", bodyGet b "quantity", bodyGet b "date_checked",
        bodyGet b "category", bodyGet b "sub_category"⟩
    ⟨201, ResBody.componentRows [row],
      { st with components := st.components ++ [row] }, true⟩
  else ⟨400, ResBody.validationErrors errs, st, false⟩

/-- GET /api/components. -/
def getComponents (st : Store) : HResult :=
  ⟨200, ResBody.componentRows st.components, st, true⟩

/-- GET /api/components/category/:uuid. -/
def getComponentsByCategory (st : Store) (u : String) : HResult :=
  if !isUUID u then ⟨400, ResBody.errorMsg "Invalid UUID", st, false⟩
  else
    ⟨200, ResBody.componentRows
        (st.components.filter (fun r => decide (r.category = some (JValue.jstr u)))),
      st, true⟩

/-- GET /api/components/sub-category/:uuid. -/
def getComponentsBySubCategory (st : Store) (u : String) : HResult :=
  if !isUUID u then ⟨400, ResBody.errorMsg "Invalid UUID", st, false⟩
  else
    ⟨200, ResBody.componentRows
        (st.components.filter (fun r => decide (r.sub_category = some (JValue.jstr u)))),
      st, true⟩

/-- PUT /api/components/:uuid. -/
def putComponent (st : Store) (u : String) (b : Body) : HResult :=
  if !isUUID u then ⟨400, ResBody.errorMsg "Invalid UUID", st, false⟩
  else
    let errs := runChains componentChains b
    if errs = [] then
      let upd := fun r : ComponentRow =>
        { r with reference := bodyGet b "reference", quantity := bodyGet b "quantity",
                 date_checked := bodyGet b "date_checked", category := bodyGet b "category",
                 sub_category := bodyGet b "sub_category" }
      let p := fun r : ComponentRow => decide (r.uuid = u)
      let returned := returningRows p upd st.components
      if returned = [] then
        ⟨404, ResBody.errorMsg "Component not found",
          { st with components := updateRows p upd st.components }, true⟩
      else
        ⟨200, ResBody.componentRows returned,
          { st with components := updateRows p upd st.components }, true⟩
    else ⟨400, ResBody.validationErrors errs, st, false⟩

/-- DELETE /api/components/:uuid. -/
def deleteComponent (st : Store) (u : String) : HResult :=
  if !isUUID u then ⟨400, ResBody.errorMsg "Invalid UUID", st, false⟩
  else
    let p := fun r : ComponentRow => decide (r.uuid = u)
    let returned := st.components.filter p
    let remaining := st.components.filter (fun r => !p r)
    if returned = [] then
      ⟨404, ResBody.errorMsg "Component not found",
        { st with components := remaining }, true⟩
    else ⟨204, ResBody.empty, { st with components := remaining }, true⟩

/-- POST /api/sub-components. -/
def postSubComponent (st : Store) (newUuid : String) (b : Body) : HResult :=
  let errs := runChains subComponentChains b
  if errs = [] then
    let row : SubComponentRow :=
      ⟨newUuid, bodyGet b "super_uuid", bodyGet b "place", bodyGet b "note"⟩
    ⟨201, ResBody.subComponentRows [row],
      { st with subComponents := st.subComponents ++ [row] }, true⟩
  else ⟨400, ResBody.validationErrors errs, st, false⟩

/-- GET /api/sub-components/component/:uuid. -/
def getSubComponentsByComponent (st : Store) (u : String) : HResult :=
  if !isUUID u then ⟨400, ResBody.errorMsg "Invalid UUID", st, false⟩
  else
    ⟨200, ResBody.subComponentRows
        (st.subComponents.filter (fun r => decide (r.super_uuid = some (JValue.jstr u)))),
      st, true⟩

/-- PUT /api/sub-components/:uuid. -/
def putSubComponent (st : Store) (u : String) (b : Body) : HResult :=
  if !isUUID u then ⟨400, ResBody.errorMsg "Invalid UUID", st, false⟩
  else
    let errs := runChains subComponentChains b
    if errs = [] then
      let upd := fun r : SubComponentRow =>
        { r with super_uuid := bodyGet b "super_uuid", place := bodyGet b "place",
                 note := bodyGet b "note" }
      let p := fun r : SubComponentRow => decide (r.uuid = u)
      let returned := returningRows p upd st.subComponents
      if returned = [] then
        ⟨404, ResBody.errorMsg "Sub-component not found",
          { st with subComponents := updateRows p upd st.subComponents }, true⟩
      else
        ⟨200, ResBody.subComponentRows returned,
          { st with subComponents := updateRows p upd st.subComponents }, true⟩
    else ⟨400, ResBody.validationErrors errs, st, false⟩

/-- DELETE /api/sub-components/:uuid. -/
def deleteSubComponent (st : Store) (u : String) : HResult :=
  if !isUUID u then ⟨400, ResBody.errorMsg "Invalid UUID", st, false⟩
  else
    let p := fun r : SubComponentRow => decide (r.uuid = u)
    let returned := st.subComponents.filter p
    let remaining := st.subComponents.filter (fun r => !p r)
    if returned = [] then
      ⟨404, ResBody.errorMsg "Sub-component not found",
        { st with subComponents := remaining }, true⟩
    else ⟨204, ResBody.empty, { st with subComponents := remaining }, true⟩

/-! Helper lemmas shared by the claim theorems. -/

/-- A valid UUID is not the empty string. -/
theorem isUUID_ne_empty {u : String} (h : isUUID u = true) : u ≠ "" := by
  intro he
  subst he
  exact absurd h (by decide)

/-- Filtering with a predicate false on every element yields the empty
list. -/
theorem filter_eq_nil_of_all_false {α : Type} {p : α → Bool} {l : List α}
    (h : ∀ a ∈ l, p a = false) : l.filter p = [] := by
  induction l with
  | nil => rfl
  | cons x xs ih =>
    have hx := h x (List.mem_cons_self x xs)
    simp only [List.filter_cons, hx]
    exact ih (fun a ha => h a (List.mem_cons_of_mem x ha))

/-- Filtering with the negation of a predicate false on every element
keeps the list. -/
theorem filter_not_eq_self_of_all_false {α : Type} {p : α → Bool} {l : List α}
    (h : ∀ a ∈ l, p a = false) : l.filter (fun a => !p a) = l := by
  induction l with
  | nil => rfl
  | cons x xs ih =>
    have hx := h x (List.mem_cons_self x xs)
    simp only [List.filter_cons, hx]
    simp [ih (fun a ha => h a (List.mem_cons_of_mem x ha))]

/-- Conditionally mapping with a predicate false on every element is the
identity. -/
theorem map_ite_id_of_all_false {α : Type} {p : α → Bool} {f : α → α} {l : List α}
    (h : ∀ a ∈ l, p a = false) :
    l.map (fun r => if p r then f r else r) = l := by
  induction l with
  | nil => rfl
  | cons x xs ih =>
    have hx := h x (List.mem_cons_self x xs)
    simp only [List.map_cons, hx]
    simp [ih (fun a ha => h a (List.mem_cons_of_mem x ha))]

/-- Filtering a list whose single matching element is known. -/
theorem filter_single_match {α : Type} (p : α → Bool) {l₁ l₂ : List α} {x : α}
    (hx : p x = true) (h₁ : ∀ a ∈ l₁, p a = false) (h₂ : ∀ a ∈ l₂, p a = false) :
    (l₁ ++ x :: l₂).filter p = [x] := by
  simp only [List.filter_append, List.filter_cons, hx,
    filter_eq_nil_of_all_false h₁, filter_eq_nil_of_all_false h₂]
  rfl

/-- Removing the matches of a list whose single matching element is
known. -/
theorem filter_not_single_match {α : Type} (p : α → Bool) {l₁ l₂ : List α} {x : α}
    (hx : p x = true) (h₁ : ∀ a ∈ l₁, p a = false) (h₂ : ∀ a ∈ l₂, p a = false) :
    (l₁ ++ x :: l₂).filter (fun a => !p a) = l₁ ++ l₂ := by
  simp only [List.filter_append, List.filter_cons, hx,
    filter_not_eq_self_of_all_false h₁, filter_not_eq_self_of_all_false h₂]
  rfl

/-- Conditionally mapping a list whose single matching element is known. -/
theorem map_ite_single_match {α : Type} (p : α → Bool) (f : α → α) {l₁ l₂ : List α} {x : α}
    (hx : p x = true) (h₁ : ∀ a ∈ l₁, p a = false) (h₂ : ∀ a ∈ l₂, p a = false) :
    (l₁ ++ x :: l₂).map (fun r => if p r then f r else r) = l₁ ++ f x :: l₂ := by
  simp only [List.map_append, List.map_cons, hx, if_true,
    map_ite_id_of_all_false h₁, map_ite_id_of_all_false h₂]

/-- RETURNING of an UPDATE touching no row is empty. -/
theorem returningRows_nomatch {α : Type} (p : α → Bool) (f : α → α) {l : List α}
    (h : ∀ a ∈ l, p a = false) : returningRows p f l = [] := by
  rw [returningRows, filter_eq_nil_of_all_false h]
  rfl

/-- An UPDATE touching no row leaves the table unchanged. -/
theorem updateRows_nomatch {α : Type} (p : α → Bool) (f : α → α) {l : List α}
    (h : ∀ a ∈ l, p a = false) : updateRows p f l = l := by
  rw [updateRows]
  exact map_ite_id_of_all_false h

/-- RETURNING of an UPDATE touching one known row is that row updated. -/
theorem returningRows_single {α : Type} (p : α → Bool) (f : α → α) {l₁ l₂ : List α} {x : α}
    (hx : p x = true) (h₁ : ∀ a ∈ l₁, p a = false) (h₂ : ∀ a ∈ l₂, p a = false) :
    returningRows p f (l₁ ++ x :: l₂) = [f x] := by
  rw [returningRows, filter_single_match p hx h₁ h₂]
  rfl

/-- An UPDATE touching one known row rewrites it in place. -/
theorem updateRows_single {α : Type} (p : α → Bool) (f : α → α) {l₁ l₂ : List α} {x : α}
    (hx : p x = true) (h₁ : ∀ a ∈ l₁, p a = false) (h₂ : ∀ a ∈ l₂, p a = false) :
    updateRows p f (l₁ ++ x :: l₂) = l₁ ++ f x :: l₂ := by
  rw [updateRows]
  exact map_ite_single_match p f hx h₁ h₂

/-- Error collection is the ordered list of the failed rules, one entry
each. -/
theorem runChains_eq_failed_rules (cs : List Chain) (b : Body) :
    runChains cs b =
      (cs.filter (fun c => failsChain c b)).map (fun c => (⟨c.fld, c.msg⟩ : FieldError)) := by
  induction cs with
  | nil => rfl
  | cons c cs ih =>
    by_cases h : failsChain c b
    · simp [runChains, runChain, List.filter_cons, h, ih]
    · simp [runChains, runChain, List.filter_cons, h, ih]

/-- A fixed valid version-4 UUID used by concrete witnesses. -/
def uuidA : String := "3b241101-e2bb-4255-8caf-4136c566a962"

/-- A second fixed valid version-4 UUID used by concrete witnesses. -/
def uuidB : String := "9f8b4101-12ab-4255-9caf-4136c566a962"

/-- C2: every route taking a :uuid path parameter (the four PUTs, the four
DELETEs and the four relation-scoped GETs) responds 400 with body
{error: "Invalid UUID"} when the parameter is not a syntactically valid
UUID, leaves the store unchanged and executes no SQL statement. -/
theorem c2_invalid_uuid_short_circuits :
    ∀ (st : Store) (u : String) (b : Body), isUUID u = false →
      putCategory st u b = ⟨400, ResBody.errorMsg "Invalid UUID", st, false⟩ ∧
      putSubCategory st u b = ⟨400, ResBody.errorMsg "Invalid UUID", st, false⟩ ∧
      putComponent st u b = ⟨400, ResBody.errorMsg "Invalid UUID", st, false⟩ ∧
      putSubComponent st u b = ⟨400, ResBody.errorMsg "Invalid UUID", st, false⟩ ∧
      deleteCategory st u = ⟨400, ResBody.errorMsg "Invalid UUID", st, false⟩ ∧
      deleteSubCategory st u = ⟨400, ResBody.errorMsg "Invalid UUID", st, false⟩ ∧
      deleteComponent st u = ⟨400, ResBody.errorMsg "Invalid UUID", st, false⟩ ∧
      deleteSubComponent st u = ⟨400, ResBody.errorMsg "Invalid UUID", st, false⟩ ∧
      getSubCategoriesByParent st u = ⟨400, ResBody.errorMsg "Invalid UUID", st, false⟩ ∧
      getComponentsByCategory st u = ⟨400, ResBody.errorMsg "Invalid UUID", st, false⟩ ∧
      getComponentsBySubCategory st u = ⟨400, ResBody.errorMsg "Invalid UUID", st, false⟩ ∧
      getSubComponentsByComponent st u = ⟨400, ResBody.errorMsg "Invalid UUID", st, false⟩ := by
  intro st u b h
  refine ⟨?_, ?_, ?_, ?_, ?_, ?_, ?_, ?_, ?_, ?_, ?_, ?_⟩
  · simp [putCategory, h]
  · simp [putSubCategory, h]
  · simp [putComponent, h]
  · simp [putSubComponent, h]
  · simp [deleteCategory, h]
  · simp [deleteSubCategory, h]
  · simp [deleteComponent, h]
  · simp [deleteSubComponent, h]
  · simp [getSubCategoriesByParent, h]
  · simp [getComponentsByCategory, h]
  · simp [getComponentsBySubCategory, h]
  · simp [getSubComponentsByComponent, h]

/-- Witness for C2: the invalid path parameter "123" is rejected on a
concrete request. -/
theorem c2_invalid_uuid_short_circuits_witness :
    putCategory emptyStore "123" [] = ⟨400, ResBody.errorMsg "Invalid UUID", emptyStore, false⟩ :=
  (c2_invalid_uuid_short_circuits emptyStore "123" [] (by decide)).1

/-- C10: POST /api/components accepts a quantity supplied as a digit
string: with quantity "5" the chains collect no error, the handler answers
201, and the insert is attempted with the string value. -/
theorem c10_quantity_digit_string_accepted :
    runChains componentChains
        [("reference", JValue.jstr "R-77"), ("quantity", JValue.jstr "5"),
         ("date_checked", JValue.jstr "2024-01-15"),
         ("category", JValue.jstr uuidA), ("sub_category", JValue.jstr uuidB)] = [] ∧
    (postComponent emptyStore uuidA
        [("reference", JValue.jstr "R-77"), ("quantity", JValue.jstr "5"),
         ("date_checked", JValue.jstr "2024-01-15"),
         ("category", JValue.jstr uuidA), ("sub_category", JValue.jstr uuidB)]).status = 201 ∧
    (postComponent emptyStore uuidA
        [("reference", JValue.jstr "R-77"), ("quantity", JValue.jstr "5"),
         ("date_checked", JValue.jstr "2024-01-15"),
         ("category", JValue.jstr uuidA), ("sub_category", JValue.jstr uuidB)]).sqlRan = true ∧
    (postComponent emptyStore uuidA
        [("reference", JValue.jstr "R-77"), ("quantity", JValue.jstr "5"),
         ("date_checked", JValue.jstr "2024-01-15"),
         ("category", JValue.jstr uuidA), ("sub_category", JValue.jstr uuidB)]).store.components =
      [⟨uuidA, some (JValue.jstr "R-77"), some (JValue.jstr "5"),
        some (JValue.jstr "2024-01-15"), some (JValue.jstr uuidA),
        some (JValue.jstr uuidB)⟩] := by
  refine ⟨by decide, by decide, by decide, by decide⟩

/-- C3: every write endpoint (the four POSTs and the four PUTs) answers a
body-rule violation with 400 and the structured error list; the list holds
exactly one {field, message} entry per failed rule, all failures collected
in declaration order rather than stopping at the first. -/
theorem c3_validation_errors_collected :
    (∀ (cs : List Chain) (b : Body),
        runChains cs b =
          (cs.filter (fun c => failsChain c b)).map (fun c => (⟨c.fld, c.msg⟩ : FieldError))) ∧
    (∀ (st : Store) (nu : String) (b : Body), runChains categoryChains b ≠ [] →
        postCategory st nu b =
          ⟨400, ResBody.validationErrors (runChains categoryChains b), st, false⟩) ∧
    (∀ (st : Store) (nu : String) (b : Body), runChains subCategoryChains b ≠ [] →
        postSubCategory st nu b =
          ⟨400, ResBody.validationErrors (runChains subCategoryChains b), st, false⟩) ∧
    (∀ (st : Store) (nu : String) (b : Body), runChains componentChains b ≠ [] →
        postComponent st nu b =
          ⟨400, ResBody.validationErrors (runChains componentChains b), st, false⟩) ∧
    (∀ (st : Store) (nu : String) (b : Body), runChains subComponentChains b ≠ [] →
        postSubComponent st nu b =
          ⟨400, ResBody.validationErrors (runChains subComponentChains b), st, false⟩) ∧
    (∀ (st : Store) (u : String) (b : Body), isUUID u = true →
        runChains categoryChains b ≠ [] →
        putCategory st u b =
          ⟨400, ResBody.validationErrors (runChains categoryChains b), st, false⟩) ∧
    (∀ (st : Store) (u : String) (b : Body), isUUID u = true →
        runChains subCategoryChains b ≠ [] →
        putSubCategory st u b =
          ⟨400, ResBody.validationErrors (runChains subCategoryChains b), st, false⟩) ∧
    (∀ (st : Store) (u : String) (b : Body), isUUID u = true →
        runChains componentChains b ≠ [] →
        putComponent st u b =
          ⟨400, ResBody.validationErrors (runChains componentChains b), st, false⟩) ∧
    (∀ (st : Store) (u : String) (b : Body), isUUID u = true →
        runChains subComponentChains b ≠ [] →
        putSubComponent st u b =
          ⟨400, ResBody.validationErrors (runChains subComponentChains b), st, false⟩) := by
  refine ⟨runChains_eq_failed_rules, ?_, ?_, ?_, ?_, ?_, ?_, ?_, ?_⟩
  · intro st nu b h
    simp [postCategory, h]
  · intro st nu b h
    simp [postSubCategory, h]
  · intro st nu b h
    simp [postComponent, h]
  · intro st nu b h
    simp [postSubComponent, h]
  · intro st u b hu h
    simp [putCategory, hu, h]
  · intro st u b hu h
    simp [putSubCategory, hu, h]
  · intro st u b hu h
    simp [putComponent, hu, h]
  · intro st u b hu h
    simp [putSubComponent, hu, h]

/-- Witness for C3: the empty category body fails its one rule and the
response carries exactly that entry. -/
theorem c3_validation_errors_collected_witness :
    postCategory emptyStore uuidA [] =
      ⟨400, ResBody.validationErrors [⟨"categoryName", "Category name is required"⟩],
        emptyStore, false⟩ :=
  (c3_validation_errors_collected.2.1 emptyStore uuidA [] (by decide)).trans (by decide)

/-- Concrete POST /api/components body whose quantity is the digit string
"7". -/
def c6Body : Body :=
  [("reference", JValue.jstr "R-42"), ("quantity", JValue.jstr "7"),
   ("date_checked", JValue.jstr "2023-12-01"),
   ("category", JValue.jstr uuidB), ("sub_category", JValue.jstr uuidA)]

/-- C6 counterexample: the body value "7" of quantity is a string, hence
not a non-negative integer, yet the request is answered 201, not 400: the
validator accepts any value whose stringification is a non-negative
decimal numeral. -/
theorem c6_quantity_nonint_value_cex :
    bodyGet c6Body "quantity" = some (JValue.jstr "7") ∧
    (postComponent emptyStore uuidB c6Body).status = 201 ∧
    hasFieldError (postComponent emptyStore uuidB c6Body) "quantity" = false := by
  refine ⟨by decide, by decide, by decide⟩

/-- C6 (amended): a POST /api/components request whose quantity field
stringifies to anything other than a non-negative decimal integer numeral
(for example the number -1) is answered 400 with an error entry naming
quantity; digit strings such as "7" pass the check. -/
theorem c6_amended_quantity_check :
    ∀ (st : Store) (nu : String) (b : Body),
      isIntMin0 (jvToString (bodyGet b "quantity")) = false →
      (postComponent st nu b).status = 400 ∧
      hasFieldError (postComponent st nu b) "quantity" = true := by
  intro st nu b h
  have hqe : runChain ⟨"quantity", false, Check.intMin0,
      "Quantity must be a non-negative integer"⟩ b =
      [⟨"quantity", "Quantity must be a non-negative integer"⟩] := by
    simp [runChain, failsChain, runCheck, h]
  have hmem : (⟨"quantity", "Quantity must be a non-negative integer"⟩ : FieldError) ∈
      runChains componentChains b := by
    simp [componentChains, runChains, hqe]
  have hne : runChains componentChains b ≠ [] := List.ne_nil_of_mem hmem
  constructor
  · simp [postComponent, hne]
  · simp only [postComponent, if_neg hne]
    simp only [hasFieldError, bodyErrors, List.any_eq_true, decide_eq_true_eq]
    exact ⟨_, hmem, rfl⟩

/-- Witness for C6 (amended): quantity -1 is rejected with an entry naming
quantity. -/
theorem c6_amended_quantity_check_witness :
    (postComponent emptyStore uuidA [("quantity", JValue.jnum (-1))]).status = 400 ∧
    hasFieldError (postComponent emptyStore uuidA [("quantity", JValue.jnum (-1))]) "quantity" =
      true :=
  c6_amended_quantity_check emptyStore uuidA _ (by decide)

/-- C7: a POST /api/components request whose date_checked does not parse
under the ISO 8601 grammar of the validator is answered 400 with an error
entry naming date_checked. -/
theorem c7_date_checked_invalid :
    ∀ (st : Store) (nu : String) (b : Body),
      isISO8601 (jvToString (bodyGet b "date_checked")) = false →
      (postComponent st nu b).status = 400 ∧
      hasFieldError (postComponent st nu b) "date_checked" = true := by
  intro st nu b h
  have hde : runChain ⟨"date_checked", false, Check.iso8601,
      "Date must be in ISO8601 format"⟩ b =
      [⟨"date_checked", "Date must be in ISO8601 format"⟩] := by
    simp [runChain, failsChain, runCheck, h]
  have hmem : (⟨"date_checked", "Date must be in ISO8601 format"⟩ : FieldError) ∈
      runChains componentChains b := by
    simp [componentChains, runChains, hde]
  have hne : runChains componentChains b ≠ [] := List.ne_nil_of_mem hmem
  constructor
  · simp [postComponent, hne]
  · simp only [postComponent, if_neg hne]
    simp only [hasFieldError, bodyErrors, List.any_eq_true, decide_eq_true_eq]
    exact ⟨_, hmem, rfl⟩

/-- Witness for C7: date_checked "not-a-date" is rejected with an entry
naming date_checked. -/
theorem c7_date_checked_invalid_witness :
    (postComponent emptyStore uuidA [("date_checked", JValue.jstr "not-a-date")]).status = 400 ∧
    hasFieldError (postComponent emptyStore uuidA [("date_checked", JValue.jstr "not-a-date")])
      "date_checked" = true :=
  c7_date_checked_invalid emptyStore uuidA _ (by decide)

/-- Concrete category body using the snake_case field name the spec
table lists. -/
def c8Body : Body := [("category_name", JValue.jstr "Electronics")]

/-- C8 counterexample: a body whose category_name is a non-empty string is
answered 400 with an error naming categoryName, not 201: the required
field of the code is categoryName. -/
theorem c8_field_name_cex :
    bodyGet c8Body "category_name" = some (JValue.jstr "Electronics") ∧
    (postCategory emptyStore uuidA c8Body).status = 400 ∧
    hasFieldError (postCategory emptyStore uuidA c8Body) "categoryName" = true := by
  refine ⟨by decide, by decide, by decide⟩

/-- C8 (amended): the required body field of category creation is named
categoryName: a body whose categoryName is a non-empty string is answered
201 with the created row, and a body lacking categoryName is answered 400
with a validation error naming it. -/
theorem c8_amended_categoryName_required :
    (∀ (st : Store) (nu : String) (b : Body) (s : String),
        bodyGet b "categoryName" = some (JValue.jstr s) → s ≠ "" →
        postCategory st nu b =
          ⟨201, ResBody.categoryRows [⟨nu, some (JValue.jstr s)⟩],
            { st with categories := st.categories ++ [⟨nu, some (JValue.jstr s)⟩] }, true⟩) ∧
    (∀ (st : Store) (nu : String) (b : Body),
        bodyGet b "categoryName" = none →
        (postCategory st nu b).status = 400 ∧
        hasFieldError (postCategory st nu b) "categoryName" = true) := by
  constructor
  · intro st nu b s hget hs
    have hv : runChains categoryChains b = [] := by
      simp [runChains, categoryChains, runChain, failsChain, runCheck, hget, jvToString, hs]
    simp [postCategory, hv, hget]
  · intro st nu b hget
    have hv : runChains categoryChains b = [⟨"categoryName", "Category name is required"⟩] := by
      simp [runChains, categoryChains, runChain, failsChain, runCheck, hget, jvToString]
    constructor
    · simp [postCategory, hv]
    · simp [postCategory, hv, hasFieldError, bodyErrors]

/-- Witness for C8 (amended): a concrete creation succeeds with 201 and a
concrete field-less body is rejected with 400. -/
theorem c8_amended_categoryName_required_witness :
    postCategory emptyStore uuidA [("categoryName", JValue.jstr "Tools")] =
      ⟨201, ResBody.categoryRows [⟨uuidA, some (JValue.jstr "Tools")⟩],
        { emptyStore with categories := [⟨uuidA, some (JValue.jstr "Tools")⟩] }, true⟩ ∧
    (postCategory emptyStore uuidA []).status = 400 :=
  ⟨(c8_amended_categoryName_required.1 emptyStore uuidA
      [("categoryName", JValue.jstr "Tools")] "Tools" (by decide) (by decide)).trans (by decide),
   (c8_amended_categoryName_required.2 emptyStore uuidA [] (by decide)).1⟩

/-- C1: for each entity, a PUT with a valid UUID and a valid body answers
404 with {error: "<Entity> not found"} and leaves the store unchanged when
no row carries the identifier, and answers 200 with the updated row
wrapped in an array when exactly one row carries it. -/
theorem c1_put_contract :
    (∀ (st : Store) (u : String) (b : Body), isUUID u = true →
      runChains categoryChains b = [] →
      ((∀ r ∈ st.categories, r.uuid ≠ u) →
          putCategory st u b = ⟨404, ResBody.errorMsg "Category not found", st, true⟩) ∧
      (∀ (l₁ l₂ : List CategoryRow) (x : CategoryRow), st.categories = l₁ ++ x :: l₂ →
          x.uuid = u → (∀ r ∈ l₁, r.uuid ≠ u) → (∀ r ∈ l₂, r.uuid ≠ u) →
          putCategory st u b =
            ⟨200,
              ResBody.categoryRows [{ x with categoryName := bodyGet b "categoryName" }],
              { st with categories :=
                  l₁ ++ { x with categoryName := bodyGet b "categoryName" } :: l₂ }, true⟩)) ∧
    (∀ (st : Store) (u : String) (b : Body), isUUID u = true →
      runChains subCategoryChains b = [] →
      ((∀ r ∈ st.subCategories, r.uuid ≠ u) →
          putSubCategory st u b = ⟨404, ResBody.errorMsg "Sub-category not found", st, true⟩) ∧
      (∀ (l₁ l₂ : List SubCategoryRow) (x : SubCategoryRow),
          st.subCategories = l₁ ++ x :: l₂ →
          x.uuid = u → (∀ r ∈ l₁, r.uuid ≠ u) → (∀ r ∈ l₂, r.uuid ≠ u) →
          putSubCategory st u b =
            ⟨200,
              ResBody.subCategoryRows
                [{ x with subCategoryName := bodyGet b "subCategoryName",
                          parent := bodyGet b "parent" }],
              { st with subCategories :=
                  l₁ ++ { x with subCategoryName := bodyGet b "subCategoryName",
                                 parent := bodyGet b "parent" } :: l₂ }, true⟩)) ∧
    (∀ (st : Store) (u : String) (b : Body), isUUID u = true →
      runChains componentChains b = [] →
      ((∀ r ∈ st.components, r.uuid ≠ u) →
          putComponent st u b = ⟨404, ResBody.errorMsg "Component not found", st, true⟩) ∧
      (∀ (l₁ l₂ : List ComponentRow) (x : ComponentRow), st.components = l₁ ++ x :: l₂ →
          x.uuid = u → (∀ r ∈ l₁, r.uuid ≠ u) → (∀ r ∈ l₂, r.uuid ≠ u) →
          putComponent st u b =
            ⟨200,
              ResBody.componentRows
                [{ x with reference := bodyGet b "reference",
                          quantity := bodyGet b "quantity",
                          date_checked := bodyGet b "date_checked",
                          category := bodyGet b "category",
                          sub_category := bodyGet b "sub_category" }],
              { st with components :=
                  l₁ ++ { x with reference := bodyGet b "reference",
                                 quantity := bodyGet b "quantity",
                                 date_checked := bodyGet b "date_checked",
                                 category := bodyGet b "category",
                                 sub_category := bodyGet b "sub_category" } :: l₂ }, true⟩)) ∧
    (∀ (st : Store) (u : String) (b : Body), isUUID u = true →
      runChains subComponentChains b = [] →
      ((∀ r ∈ st.subComponents, r.uuid ≠ u) →
          putSubComponent st u b = ⟨404, ResBody.errorMsg "Sub-component not found", st, true⟩) ∧
      (∀ (l₁ l₂ : List SubComponentRow) (x : SubComponentRow),
          st.subComponents = l₁ ++ x :: l₂ →
          x.uuid = u → (∀ r ∈ l₁, r.uuid ≠ u) → (∀ r ∈ l₂, r.uuid ≠ u) →
          putSubComponent st u b =
            ⟨200,
              ResBody.subComponentRows
                [{ x with super_uuid := bodyGet b "super_uuid",
                          place := bodyGet b "place",
                          note := bodyGet b "note" }],
              { st with subComponents :=
                  l₁ ++ { x with super_uuid := bodyGet b "super_uuid",
                                 place := bodyGet b "place",
                                 note := bodyGet b "note" } :: l₂ }, true⟩)) := by
  refine ⟨?_, ?_, ?_, ?_⟩ <;> intro st u b hu hv <;> constructor
  · intro hnone
    have hp : ∀ r ∈ st.categories, decide (r.uuid = u) = false := fun r hr => by
      simp [hnone r hr]
    have hret := returningRows_nomatch (fun r : CategoryRow => decide (r.uuid = u))
      (fun r => { r with categoryName := bodyGet b "categoryName" }) hp
    have hupd := updateRows_nomatch (fun r : CategoryRow => decide (r.uuid = u))
      (fun r => { r with categoryName := bodyGet b "categoryName" }) hp
    simp [putCategory, hu, hv, hret, hupd]
  · intro l₁ l₂ x hsplit hxu h₁ h₂
    have hp₁ : ∀ r ∈ l₁, decide (r.uuid = u) = false := fun r hr => by simp [h₁ r hr]
    have hp₂ : ∀ r ∈ l₂, decide (r.uuid = u) = false := fun r hr => by simp [h₂ r hr]
    have hpx : decide (x.uuid = u) = true := by simp [hxu]
    have hret : returningRows (fun r : CategoryRow => decide (r.uuid = u))
        (fun r => { r with categoryName := bodyGet b "categoryName" }) st.categories =
        [{ x with categoryName := bodyGet b "categoryName" }] := by
      rw [hsplit]
      exact returningRows_single _ _ hpx hp₁ hp₂
    have hupd : updateRows (fun r : CategoryRow => decide (r.uuid = u))
        (fun r => { r with categoryName := bodyGet b "categoryName" }) st.categories =
        l₁ ++ { x with categoryName := bodyGet b "categoryName" } :: l₂ := by
      rw [hsplit]
      exact updateRows_single _ _ hpx hp₁ hp₂
    simp [putCategory, hu, hv, hret, hupd]
  · intro hnone
    have hp : ∀ r ∈ st.subCategories, decide (r.uuid = u) = false := fun r hr => by
      simp [hnone r hr]
    have hret := returningRows_nomatch (fun r : SubCategoryRow => decide (r.uuid = u))
      (fun r => { r with subCategoryName := bodyGet b "subCategoryName",
                         parent := bodyGet b "parent" }) hp
    have hupd := updateRows_nomatch (fun r : SubCategoryRow => decide (r.uuid = u))
      (fun r => { r with subCategoryName := bodyGet b "subCategoryName",
                         parent := bodyGet b "parent" }) hp
    simp [putSubCategory, hu, hv, hret, hupd]
  · intro l₁ l₂ x hsplit hxu h₁ h₂
    have hp₁ : ∀ r ∈ l₁, decide (r.uuid = u) = false := fun r hr => by simp [h₁ r hr]
    have hp₂ : ∀ r ∈ l₂, decide (r.uuid = u) = false := fun r hr => by simp [h₂ r hr]
    have hpx : decide (x.uuid = u) = true := by simp [hxu]
    have hret : returningRows (fun r : SubCategoryRow => decide (r.uuid = u))
        (fun r => { r with subCategoryName := bodyGet b "subCategoryName",
                           parent := bodyGet b "parent" }) st.subCategories =
        [{ x with subCategoryName := bodyGet b "subCategoryName",
                  parent := bodyGet b "parent" }] := by
      rw [hsplit]
      exact returningRows_single _ _ hpx hp₁ hp₂
    have hupd : updateRows (fun r : SubCategoryRow => decide (r.uuid = u))
        (fun r => { r with subCategoryName := bodyGet b "subCategoryName",
                           parent := bodyGet b "parent" }) st.subCategories =
        l₁ ++ { x with subCategoryName := bodyGet b "subCategoryName",
                       parent := bodyGet b "parent" } :: l₂ := by
      rw [hsplit]
      exact updateRows_single _ _ hpx hp₁ hp₂
    simp [putSubCategory, hu, hv, hret, hupd]
  · intro hnone
    have hp : ∀ r ∈ st.components, decide (r.uuid = u) = false := fun r hr => by
      simp [hnone r hr]
    have hret := returningRows_nomatch (fun r : ComponentRow => decide (r.uuid = u))
      (fun r => { r with reference := bodyGet b "reference",
                         quantity := bodyGet b "quantity",
                         date_checked := bodyGet b "date_checked",
                         category := bodyGet b "category",
                         sub_category := bodyGet b "sub_category" }) hp
    have hupd := updateRows_nomatch (fun r : ComponentRow => decide (r.uuid = u))
      (fun r => { r with reference := bodyGet b "reference",
                         quantity := bodyGet b "quantity",
                         date_checked := bodyGet b "date_checked",
                         category := bodyGet b "category",
                         sub_category := bodyGet b "sub_category" }) hp
    simp [putComponent, hu, hv, hret, hupd]
  · intro l₁ l₂ x hsplit hxu h₁ h₂
    have hp₁ : ∀ r ∈ l₁, decide (r.uuid = u) = false := fun r hr => by simp [h₁ r hr]
    have hp₂ : ∀ r ∈ l₂, decide (r.uuid = u) = false := fun r hr => by simp [h₂ r hr]
    have hpx : decide (x.uuid = u) = true := by simp [hxu]
    have hret : returningRows (fun r : ComponentRow => decide (r.uuid = u))
        (fun r => { r with reference := bodyGet b "reference",
                           quantity := bodyGet b "quantity",
                           date_checked := bodyGet b "date_checked",
                           category := bodyGet b "category",
                           sub_category := bodyGet b "sub_category" }) st.components =
        [{ x with reference := bodyGet b "reference",
                  quantity := bodyGet b "quantity",
                  date_checked := bodyGet b "date_checked",
                  category := bodyGet b "category",
                  sub_category := bodyGet b "sub_category" }] := by
      rw [hsplit]
      exact returningRows_single _ _ hpx hp₁ hp₂
    have hupd : updateRows (fun r : ComponentRow => decide (r.uuid = u))
        (fun r => { r with reference := bodyGet b "reference",
                           quantity := bodyGet b "quantity",
                           date_checked := bodyGet b "date_checked",
                           category := bodyGet b "category",
                           sub_category := bodyGet b "sub_category" }) st.components =
        l₁ ++ { x with reference := bodyGet b "reference",
                       quantity := bodyGet b "quantity",
                       date_checked := bodyGet b "date_checked",
                       category := bodyGet b "category",
                       sub_category := bodyGet b "sub_category" } :: l₂ := by
      rw [hsplit]
      exact updateRows_single _ _ hpx hp₁ hp₂
    simp [putComponent, hu, hv, hret, hupd]
  · intro hnone
    have hp : ∀ r ∈ st.subComponents, decide (r.uuid = u) = false := fun r hr => by
      simp [hnone r hr]
    have hret := returningRows_nomatch (fun r : SubComponentRow => decide (r.uuid = u))
      (fun r => { r with super_uuid := bodyGet b "super_uuid",
                         place := bodyGet b "place",
                         note := bodyGet b "note" }) hp
    have hupd := updateRows_nomatch (fun r : SubComponentRow => decide (r.uuid = u))
      (fun r => { r with super_uuid := bodyGet b "super_uuid",
                         place := bodyGet b "place",
                         note := bodyGet b "note" }) hp
    simp [putSubComponent, hu, hv, hret, hupd]
  · intro l₁ l₂ x hsplit hxu h₁ h₂
    have hp₁ : ∀ r ∈ l₁, decide (r.uuid = u) = false := fun r hr => by simp [h₁ r hr]
    have hp₂ : ∀ r ∈ l₂, decide (r.uuid = u) = false := fun r hr => by simp [h₂ r hr]
    have hpx : decide (x.uuid = u) = true := by simp [hxu]
    have hret : returningRows (fun r : SubComponentRow => decide (r.uuid = u))
        (fun r => { r with super_uuid := bodyGet b "super_uuid",
                           place := bodyGet b "place",
                           note := bodyGet b "note" }) st.subComponents =
        [{ x with super_uuid := bodyGet b "super_uuid",
                  place := bodyGet b "place",
                  note := bodyGet b "note" }] := by
      rw [hsplit]
      exact returningRows_single _ _ hpx hp₁ hp₂
    have hupd : updateRows (fun r : SubComponentRow => decide (r.uuid = u))
        (fun r => { r with super_uuid := bodyGet b "super_uuid",
                           place := bodyGet b "place",
                           note := bodyGet b "note" }) st.subComponents =
        l₁ ++ { x with super_uuid := bodyGet b "super_uuid",
                       place := bodyGet b "place",
                       note := bodyGet b "note" } :: l₂ := by
      rw [hsplit]
      exact updateRows_single _ _ hpx hp₁ hp₂
    simp [putSubComponent, hu, hv, hret, hupd]

/-- Witness for C1: a concrete PUT on an absent identifier answers 404 and
a concrete PUT on the one stored row answers 200 with the updated row. -/
theorem c1_put_contract_witness :
    putCategory emptyStore uuidA [("categoryName", JValue.jstr "Tools")] =
      ⟨404, ResBody.errorMsg "Category not found", emptyStore, true⟩ ∧
    putCategory ⟨[⟨uuidA, some (JValue.jstr "Old")⟩], [], [], []⟩ uuidA
        [("categoryName", JValue.jstr "New")] =
      ⟨200, ResBody.categoryRows [⟨uuidA, some (JValue.jstr "New")⟩],
        ⟨[⟨uuidA, some (JValue.jstr "New")⟩], [], [], []⟩, true⟩ := by
  constructor
  · exact (c1_put_contract.1 emptyStore uuidA [("categoryName", JValue.jstr "Tools")]
      (by decide) (by decide)).1 (by decide)
  · exact ((c1_put_contract.1 ⟨[⟨uuidA, some (JValue.jstr "Old")⟩], [], [], []⟩ uuidA
      [("categoryName", JValue.jstr "New")] (by decide) (by decide)).2
      [] [] ⟨uuidA, some (JValue.jstr "Old")⟩ rfl rfl (by simp) (by simp)).trans (by decide)

/-- C4: for each entity, DELETE with a valid UUID of the one stored row
carrying it answers 204 with an empty body and removes the row, and an
immediately repeated DELETE of the same UUID answers 404 and leaves the
store unchanged. -/
theorem c4_delete_idempotent_effect :
    (∀ (st : Store) (u : String) (l₁ l₂ : List CategoryRow) (x : CategoryRow),
      isUUID u = true → st.categories = l₁ ++ x :: l₂ → x.uuid = u →
      (∀ r ∈ l₁, r.uuid ≠ u) → (∀ r ∈ l₂, r.uuid ≠ u) →
      deleteCategory st u = ⟨204, ResBody.empty, { st with categories := l₁ ++ l₂ }, true⟩ ∧
      deleteCategory { st with categories := l₁ ++ l₂ } u =
        ⟨404, ResBody.errorMsg "Category not found",
          { st with categories := l₁ ++ l₂ }, true⟩) ∧
    (∀ (st : Store) (u : String) (l₁ l₂ : List SubCategoryRow) (x : SubCategoryRow),
      isUUID u = true → st.subCategories = l₁ ++ x :: l₂ → x.uuid = u →
      (∀ r ∈ l₁, r.uuid ≠ u) → (∀ r ∈ l₂, r.uuid ≠ u) →
      deleteSubCategory st u =
        ⟨204, ResBody.empty, { st with subCategories := l₁ ++ l₂ }, true⟩ ∧
      deleteSubCategory { st with subCategories := l₁ ++ l₂ } u =
        ⟨404, ResBody.errorMsg "Sub-category not found",
          { st with subCategories := l₁ ++ l₂ }, true⟩) ∧
    (∀ (st : Store) (u : String) (l₁ l₂ : List ComponentRow) (x : ComponentRow),
      isUUID u = true → st.components = l₁ ++ x :: l₂ → x.uuid = u →
      (∀ r ∈ l₁, r.uuid ≠ u) → (∀ r ∈ l₂, r.uuid ≠ u) →
      deleteComponent st u = ⟨204, ResBody.empty, { st with components := l₁ ++ l₂ }, true⟩ ∧
      deleteComponent { st with components := l₁ ++ l₂ } u =
        ⟨404, ResBody.errorMsg "Component not found",
          { st with components := l₁ ++ l₂ }, true⟩) ∧
    (∀ (st : Store) (u : String) (l₁ l₂ : List SubComponentRow) (x : SubComponentRow),
      isUUID u = true → st.subComponents = l₁ ++ x :: l₂ → x.uuid = u →
      (∀ r ∈ l₁, r.uuid ≠ u) → (∀ r ∈ l₂, r.uuid ≠ u) →
      deleteSubComponent st u =
        ⟨204, ResBody.empty, { st with subComponents := l₁ ++ l₂ }, true⟩ ∧
      deleteSubComponent { st with subComponents := l₁ ++ l₂ } u =
        ⟨404, ResBody.errorMsg "Sub-component not found",
          { st with subComponents := l₁ ++ l₂ }, true⟩) := by
  refine ⟨?_, ?_, ?_, ?_⟩
  · intro st u l₁ l₂ x hu hsplit hxu h₁ h₂
    have hp₁ : ∀ r ∈ l₁, decide (r.uuid = u) = false := fun r hr => by simp [h₁ r hr]
    have hp₂ : ∀ r ∈ l₂, decide (r.uuid = u) = false := fun r hr => by simp [h₂ r hr]
    have hpx : decide (x.uuid = u) = true := by simp [hxu]
    have hg : ∀ r ∈ l₁ ++ l₂, decide (r.uuid = u) = false := by
      intro r hr
      rcases List.mem_append.mp hr with hm | hm
      · exact hp₁ r hm
      · exact hp₂ r hm
    constructor
    · have hdel : List.filter (fun r : CategoryRow => decide (r.uuid = u)) st.categories = [x] := by
        rw [hsplit]
        exact filter_single_match _ hpx hp₁ hp₂
      have hrem : List.filter (fun r : CategoryRow => !decide (r.uuid = u)) st.categories =
          l₁ ++ l₂ := by
        rw [hsplit]
        exact filter_not_single_match _ hpx hp₁ hp₂
      simp [deleteCategory, hu, hdel, hrem]
    · simp [deleteCategory, hu, filter_eq_nil_of_all_false hg,
        filter_not_eq_self_of_all_false hg]
  · intro st u l₁ l₂ x hu hsplit hxu h₁ h₂
    have hp₁ : ∀ r ∈ l₁, decide (r.uuid = u) = false := fun r hr => by simp [h₁ r hr]
    have hp₂ : ∀ r ∈ l₂, decide (r.uuid = u) = false := fun r hr => by simp [h₂ r hr]
    have hpx : decide (x.uuid = u) = true := by simp [hxu]
    have hg : ∀ r ∈ l₁ ++ l₂, decide (r.uuid = u) = false := by
      intro r hr
      rcases List.mem_append.mp hr with hm | hm
      · exact hp₁ r hm
      · exact hp₂ r hm
    constructor
    · have hdel : List.filter (fun r : SubCategoryRow => decide (r.uuid = u)) st.subCategories = [x] := by
        rw [hsplit]
        exact filter_single_match _ hpx hp₁ hp₂
      have hrem : List.filter (fun r : SubCategoryRow => !decide (r.uuid = u)) st.subCategories =
          l₁ ++ l₂ := by
        rw [hsplit]
        exact filter_not_single_match _ hpx hp₁ hp₂
      simp [deleteSubCategory, hu, hdel, hrem]
    · simp [deleteSubCategory, hu, filter_eq_nil_of_all_false hg,
        filter_not_eq_self_of_all_false hg]
  · intro st u l₁ l₂ x hu hsplit hxu h₁ h₂
    have hp₁ : ∀ r ∈ l₁, decide (r.uuid = u) = false := fun r hr => by simp [h₁ r hr]
    have hp₂ : ∀ r ∈ l₂, decide (r.uuid = u) = false := fun r hr => by simp [h₂ r hr]
    have hpx : decide (x.uuid = u) = true := by simp [hxu]
    have hg : ∀ r ∈ l₁ ++ l₂, decide (r.uuid = u) = false := by
      intro r hr
      rcases List.mem_append.mp hr with hm | hm
      · exact hp₁ r hm
      · exact hp₂ r hm
    constructor
    · have hdel : List.filter (fun r : ComponentRow => decide (r.uuid = u)) st.components = [x] := by
        rw [hsplit]
        exact filter_single_match _ hpx hp₁ hp₂
      have hrem : List.filter (fun r : ComponentRow => !decide (r.uuid = u)) st.components =
          l₁ ++ l₂ := by
        rw [hsplit]
        exact filter_not_single_match _ hpx hp₁ hp₂
      simp [deleteComponent, hu, hdel, hrem]
    · simp [deleteComponent, hu, filter_eq_nil_of_all_false hg,
        filter_not_eq_self_of_all_false hg]
  · intro st u l₁ l₂ x hu hsplit hxu h₁ h₂
    have hp₁ : ∀ r ∈ l₁, decide (r.uuid = u) = false := fun r hr => by simp [h₁ r hr]
    have hp₂ : ∀ r ∈ l₂, decide (r.uuid = u) = false := fun r hr => by simp [h₂ r hr]
    have hpx : decide (x.uuid = u) = true := by simp [hxu]
    have hg : ∀ r ∈ l₁ ++ l₂, decide (r.uuid = u) = false := by
      intro r hr
      rcases List.mem_append.mp hr with hm | hm
      · exact hp₁ r hm
      · exact hp₂ r hm
    constructor
    · have hdel : List.filter (fun r : SubComponentRow => decide (r.uuid = u)) st.subComponents = [x] := by
        rw [hsplit]
        exact filter_single_match _ hpx hp₁ hp₂
      have hrem : List.filter (fun r : SubComponentRow => !decide (r.uuid = u)) st.subComponents =
          l₁ ++ l₂ := by
        rw [hsplit]
        exact filter_not_single_match _ hpx hp₁ hp₂
      simp [deleteSubComponent, hu, hdel, hrem]
    · simp [deleteSubComponent, hu, filter_eq_nil_of_all_false hg,
        filter_not_eq_self_of_all_false hg]

/-- Witness for C4: a concrete first DELETE answers 204 and removes the
row, and the immediate repeat answers 404 on the unchanged store. -/
theorem c4_delete_idempotent_effect_witness :
    deleteCategory ⟨[⟨uuidA, some (JValue.jstr "Tools")⟩], [], [], []⟩ uuidA =
      ⟨204, ResBody.empty, ⟨[], [], [], []⟩, true⟩ ∧
    deleteCategory ⟨[], [], [], []⟩ uuidA =
      ⟨404, ResBody.errorMsg "Category not found", ⟨[], [], [], []⟩, true⟩ := by
  have h := c4_delete_idempotent_effect.1 ⟨[⟨uuidA, some (JValue.jstr "Tools")⟩], [], [], []⟩
    uuidA [] [] ⟨uuidA, some (JValue.jstr "Tools")⟩ (by decide) rfl rfl (by simp) (by simp)
  exact ⟨h.1.trans (by decide), h.2.trans (by decide)⟩

/-- C5: a POST /api/sub-components whose body omits note and carries a
non-empty super_uuid and place answers 201, the stored row's note is NULL
(none) and in particular not the empty string, and the row retrieved
through GET /api/sub-components/component/:uuid carries that same NULL
note. -/
theorem c5_subcomponent_note_omitted :
    ∀ (st : Store) (nu u p : String) (b : Body),
      isUUID u = true →
      bodyGet b "super_uuid" = some (JValue.jstr u) →
      bodyGet b "place" = some (JValue.jstr p) → p ≠ "" →
      bodyGet b "note" = none →
      postSubComponent st nu b =
        ⟨201, ResBody.subComponentRows
            [(⟨nu, some (JValue.jstr u), some (JValue.jstr p), none⟩ : SubComponentRow)],
          { st with subComponents :=
              st.subComponents ++ [(⟨nu, some (JValue.jstr u), some (JValue.jstr p), none⟩ : SubComponentRow)] },
          true⟩ ∧
      (⟨nu, some (JValue.jstr u), some (JValue.jstr p), none⟩ : SubComponentRow).note ≠
        some (JValue.jstr "") ∧
      getSubComponentsByComponent
          { st with subComponents :=
              st.subComponents ++ [(⟨nu, some (JValue.jstr u), some (JValue.jstr p), none⟩ : SubComponentRow)] }
          u =
        ⟨200, ResBody.subComponentRows
            ((st.subComponents ++
                [(⟨nu, some (JValue.jstr u), some (JValue.jstr p), none⟩ : SubComponentRow)]).filter
              (fun r => decide (r.super_uuid = some (JValue.jstr u)))),
          { st with subComponents :=
              st.subComponents ++ [(⟨nu, some (JValue.jstr u), some (JValue.jstr p), none⟩ : SubComponentRow)] },
          true⟩ ∧
      (⟨nu, some (JValue.jstr u), some (JValue.jstr p), none⟩ : SubComponentRow) ∈
        (st.subComponents ++
            [(⟨nu, some (JValue.jstr u), some (JValue.jstr p), none⟩ : SubComponentRow)]).filter
          (fun r => decide (r.super_uuid = some (JValue.jstr u))) := by
  intro st nu u p b hu hsu hp hpne hnote
  have hune : u ≠ "" := isUUID_ne_empty hu
  have hv : runChains subComponentChains b = [] := by
    simp [runChains, subComponentChains, runChain, failsChain, runCheck,
      hsu, hp, hnote, jvToString, hune, hpne]
  refine ⟨?_, by simp, ?_, ?_⟩
  · simp [postSubComponent, hv, hsu, hp, hnote]
  · simp [getSubComponentsByComponent, hu]
  · exact List.mem_filter.mpr ⟨by simp, by simp⟩

/-- Witness for C5: a concrete creation without note stores and returns a
NULL note. -/
theorem c5_subcomponent_note_omitted_witness :
    postSubComponent emptyStore uuidB
        [("super_uuid", JValue.jstr uuidA), ("place", JValue.jstr "shelf-3")] =
      ⟨201, ResBody.subComponentRows
          [⟨uuidB, some (JValue.jstr uuidA), some (JValue.jstr "shelf-3"), none⟩],
        { emptyStore with subComponents :=
            emptyStore.subComponents ++
              [⟨uuidB, some (JValue.jstr uuidA), some (JValue.jstr "shelf-3"), none⟩] },
        true⟩ ∧
    (⟨uuidB, some (JValue.jstr uuidA), some (JValue.jstr "shelf-3"), none⟩ :
        SubComponentRow) ∈
      List.filter (fun r : SubComponentRow => decide (r.super_uuid = some (JValue.jstr uuidA)))
        (emptyStore.subComponents ++
          [(⟨uuidB, some (JValue.jstr uuidA), some (JValue.jstr "shelf-3"), none⟩ :
            SubComponentRow)]) := by
  have h := c5_subcomponent_note_omitted emptyStore uuidB uuidA "shelf-3"
    [("super_uuid", JValue.jstr uuidA), ("place", JValue.jstr "shelf-3")]
    (by decide) (by decide) (by decide) (by decide) (by decide)
  exact ⟨h.1, h.2.2.2⟩

/-- Concrete sub-category body whose parent reference is the non-empty
non-UUID string "abc". -/
def c9Body : Body :=
  [("subCategoryName", JValue.jstr "Resistors"), ("parent", JValue.jstr "abc")]

/-- C9 counterexample: POST /api/sub-categories with the non-empty
non-UUID reference "abc" as parent is not rejected: body validation
passes, the insert is attempted and answered 201, so referenced
identifiers are not checked for UUID shape before store access. -/
theorem c9_reference_shape_unchecked_cex :
    isUUID "abc" = false ∧
    (postSubCategory emptyStore uuidA c9Body).status = 201 ∧
    (postSubCategory emptyStore uuidA c9Body).sqlRan = true ∧
    (postSubCategory emptyStore uuidA c9Body).store.subCategories =
      [⟨uuidA, some (JValue.jstr "Resistors"), some (JValue.jstr "abc")⟩] := by
  refine ⟨by decide, by decide, by decide, by decide⟩

/-- C9 (amended): the write endpoints taking referenced identifiers in
their bodies (parent for SubCategory, category and sub_category for
Component, super_uuid for SubComponent) validate those references only for
non-emptiness: any non-empty string, UUID-shaped or not, passes body
validation, the POSTs answer 201 and the PUTs reach the store (no 400). -/
theorem c9_amended_references_only_nonempty :
    (∀ (st : Store) (nu nm pr : String), nm ≠ "" → pr ≠ "" →
        (postSubCategory st nu
          [("subCategoryName", JValue.jstr nm), ("parent", JValue.jstr pr)]).status = 201) ∧
    (∀ (st : Store) (u nm pr : String), isUUID u = true → nm ≠ "" → pr ≠ "" →
        (putSubCategory st u
            [("subCategoryName", JValue.jstr nm), ("parent", JValue.jstr pr)]).status ≠ 400 ∧
        (putSubCategory st u
            [("subCategoryName", JValue.jstr nm), ("parent", JValue.jstr pr)]).sqlRan = true) ∧
    (∀ (st : Store) (nu ct sc : String), ct ≠ "" → sc ≠ "" →
        (postComponent st nu
          [("reference", JValue.jstr "R-1"), ("quantity", JValue.jstr "2"),
           ("date_checked", JValue.jstr "2024-01-15"),
           ("category", JValue.jstr ct), ("sub_category", JValue.jstr sc)]).status = 201) ∧
    (∀ (st : Store) (u ct sc : String), isUUID u = true → ct ≠ "" → sc ≠ "" →
        (putComponent st u
            [("reference", JValue.jstr "R-1"), ("quantity", JValue.jstr "2"),
             ("date_checked", JValue.jstr "2024-01-15"),
             ("category", JValue.jstr ct), ("sub_category", JValue.jstr sc)]).status ≠ 400 ∧
        (putComponent st u
            [("reference", JValue.jstr "R-1"), ("quantity", JValue.jstr "2"),
             ("date_checked", JValue.jstr "2024-01-15"),
             ("category", JValue.jstr ct), ("sub_category", JValue.jstr sc)]).sqlRan = true) ∧
    (∀ (st : Store) (nu su : String), su ≠ "" →
        (postSubComponent st nu
          [("super_uuid", JValue.jstr su), ("place", JValue.jstr "bin-1")]).status = 201) ∧
    (∀ (st : Store) (u su : String), isUUID u = true → su ≠ "" →
        (putSubComponent st u
            [("super_uuid", JValue.jstr su), ("place", JValue.jstr "bin-1")]).status ≠ 400 ∧
        (putSubComponent st u
            [("super_uuid", JValue.jstr su), ("place", JValue.jstr "bin-1")]).sqlRan = true) := by
  refine ⟨?_, ?_, ?_, ?_, ?_, ?_⟩
  · intro st nu nm pr hnm hpr
    have hv : runChains subCategoryChains
        [("subCategoryName", JValue.jstr nm), ("parent", JValue.jstr pr)] = [] := by
      simp [runChains, subCategoryChains, runChain, failsChain, runCheck, bodyGet,
        jvToString, hnm, hpr]
    simp [postSubCategory, hv]
  · intro st u nm pr hu hnm hpr
    have hv : runChains subCategoryChains
        [("subCategoryName", JValue.jstr nm), ("parent", JValue.jstr pr)] = [] := by
      simp [runChains, subCategoryChains, runChain, failsChain, runCheck, bodyGet,
        jvToString, hnm, hpr]
    constructor
    · simp only [putSubCategory, hu, hv]
      simp only [Bool.not_true, Bool.false_eq_true, if_false]
      split <;> first
      | (split <;> simp)
      | simp_all
    · simp only [putSubCategory, hu, hv]
      simp only [Bool.not_true, Bool.false_eq_true, if_false]
      split <;> first
      | (split <;> simp)
      | simp_all
  · intro st nu ct sc hct hsc
    have hq : isIntMin0 "2" = true := by decide
    have hd : isISO8601 "2024-01-15" = true := by decide
    have hv : runChains componentChains
        [("reference", JValue.jstr "R-1"), ("quantity", JValue.jstr "2"),
         ("date_checked", JValue.jstr "2024-01-15"),
         ("category", JValue.jstr ct), ("sub_category", JValue.jstr sc)] = [] := by
      simp [runChains, componentChains, runChain, failsChain, runCheck, bodyGet,
        jvToString, hct, hsc, hq, hd]
    simp [postComponent, hv]
  · intro st u ct sc hu hct hsc
    have hq : isIntMin0 "2" = true := by decide
    have hd : isISO8601 "2024-01-15" = true := by decide
    have hv : runChains componentChains
        [("reference", JValue.jstr "R-1"), ("quantity", JValue.jstr "2"),
         ("date_checked", JValue.jstr "2024-01-15"),
         ("category", JValue.jstr ct), ("sub_category", JValue.jstr sc)] = [] := by
      simp [runChains, componentChains, runChain, failsChain, runCheck, bodyGet,
        jvToString, hct, hsc, hq, hd]
    constructor
    · simp only [putComponent, hu, hv]
      simp only [Bool.not_true, Bool.false_eq_true, if_false]
      split <;> first
      | (split <;> simp)
      | simp_all
    · simp only [putComponent, hu, hv]
      simp only [Bool.not_true, Bool.false_eq_true, if_false]
      split <;> first
      | (split <;> simp)
      | simp_all
  · intro st nu su hsu
    have hv : runChains subComponentChains
        [("super_uuid", JValue.jstr su), ("place", JValue.jstr "bin-1")] = [] := by
      simp [runChains, subComponentChains, runChain, failsChain, runCheck, bodyGet,
        jvToString, hsu]
    simp [postSubComponent, hv]
  · intro st u su hu hsu
    have hv : runChains subComponentChains
        [("super_uuid", JValue.jstr su), ("place", JValue.jstr "bin-1")] = [] := by
      simp [runChains, subComponentChains, runChain, failsChain, runCheck, bodyGet,
        jvToString, hsu]
    constructor
    · simp only [putSubComponent, hu, hv]
      simp only [Bool.not_true, Bool.false_eq_true, if_false]
      split <;> first
      | (split <;> simp)
      | simp_all
    · simp only [putSubComponent, hu, hv]
      simp only [Bool.not_true, Bool.false_eq_true, if_false]
      split <;> first
      | (split <;> simp)
      | simp_all

/-- Witness for C9 (amended): concrete non-UUID references pass the body
validation of a POST and of a PUT. -/
theorem c9_amended_references_only_nonempty_witness :
    (postSubCategory emptyStore uuidB
      [("subCategoryName", JValue.jstr "Caps"), ("parent", JValue.jstr "abc")]).status = 201 ∧
    (putSubComponent emptyStore uuidA
        [("super_uuid", JValue.jstr "xyz"), ("place", JValue.jstr "bin-1")]).status ≠ 400 :=
  ⟨c9_amended_references_only_nonempty.1 emptyStore uuidB "Caps" "abc"
      (by decide) (by decide),
   (c9_amended_references_only_nonempty.2.2.2.2.2 emptyStore uuidA "xyz"
      (by decide) (by decide)).1⟩
